import Mathlib

/-!
Verification development for the NEXUS V3.5 self-healing quality pipeline
(`state_manager.py`, `task_manager.py`, `hooks/fix_queue.py`,
`hooks/quality_gate.py`).  The Python code is shallow-embedded: each Python
function that the properties below refer to is translated into an executable
Lean definition over explicit state values.  Python dict payloads whose
contents are never branched on (example payloads, meta dicts) are carried as
opaque association lists of strings; timestamps and fresh ids, produced by
the clock and `uuid` in Python, are passed in as explicit string parameters;
wall-clock durations are passed as explicit rational parameters.
-/

namespace Nexus

/-! ### String helpers (models of the Python `str` operations used) -/

/-- Model of Python `str.lower()` for the ASCII strings handled here. -/
def lowerStr (s : String) : String := String.mk (s.toList.map Char.toLower)

/-- Whitespace as stripped by Python `str.strip()` (ASCII subset). -/
def isWsChar (c : Char) : Bool := c == ' ' || c == '\n' || c == '\t' || c == '\r'

/-- Model of Python `str.strip()`. -/
def stripStr (s : String) : String :=
  String.mk (((s.toList.dropWhile isWsChar).reverse.dropWhile isWsChar).reverse)

/-- Model of Python `str.replace("\n", " ")` (single-character pattern). -/
def replaceNl (s : String) : String :=
  String.mk (s.toList.map (fun c => if c == '\n' then ' ' else c))

/-- Substring test over character lists; `containsSub s pat` models
Python `pat in s`. -/
def containsSubL (pat : List Char) : List Char → Bool
  | [] => pat.isEmpty
  | c :: rest => pat.isPrefixOf (c :: rest) || containsSubL pat rest

def containsSub (s pat : String) : Bool := containsSubL pat.toList s.toList

/-- Model of Python `s[-n:]` (keep the last `n` characters). -/
def takeLast (n : Nat) (s : String) : String :=
  String.mk (s.toList.drop (s.toList.length - n))

/-- Python truthiness for an optional string: collapses an absent key and a
present-but-empty string (both falsy in the `x or y` chains of the source)
to `none`. -/
def truthy (o : Option String) : Option String :=
  match o with
  | some s => if s = "" then none else some s
  | none => none

/-- Python `a or b` on optional strings: first truthy value. -/
def orElseStr (a b : Option String) : Option String :=
  match truthy a with
  | some s => some s
  | none => b

/-! ### Dict payloads

Payload dicts whose contents never influence control flow (pattern examples,
`meta` dicts) are modelled as string association lists. -/

abbrev JDict := List (String × String)

/-! ### Incident records

An incident dict as built by `quality_gate.main` / `nexus_self_heal.main` and
consumed by `fix_queue._incident_to_fix_plan`.  Each `Option String` field is
`none` when the key is absent (or its value falsy); only the fields read by
the embedded functions are carried.  `tool_input_*` model the `file_path` /
`path` keys of the `tool_input` dict (both `none` when `tool_input` is not a
dict, matching the `isinstance` guard in the source). -/
structure Incident where
  error : Option String := none
  signature : Option String := none
  failed_check : Option String := none
  incident_class : Option String := none
  cwd : Option String := none
  module_name : Option String := none
  file_path : Option String := none
  tool_input_file_path : Option String := none
  tool_input_path : Option String := none
deriving Repr, DecidableEq

/-- The lowercased joined error text computed at the top of
`fix_queue._incident_to_fix_plan`:
`" ".join([str(error), str(signature), str(failed_check), str(incident_class)]).lower()`. -/
def errorTextOf (inc : Incident) : String :=
  lowerStr ((inc.error.getD "") ++ " " ++ (inc.signature.getD "") ++ " " ++
    (inc.failed_check.getD "") ++ " " ++ (inc.incident_class.getD ""))

/-- A fix plan: `suggested_fix` text and `verify_cmd` argument vector. -/
structure FixPlan where
  suggested_fix : String
  verify_cmd : List String
deriving Repr, DecidableEq

/-- Embedding of `fix_queue._incident_to_fix_plan`.  `ambientCwd` stands for
`pathlib.Path.cwd()`, used when the incident carries no truthy `cwd`. -/
def incident_to_fix_plan (ambientCwd : String) (inc : Incident) : FixPlan :=
  let error_text := errorTextOf inc
  let cwd := (truthy inc.cwd).getD ambientCwd
  let file_path :=
    orElseStr inc.tool_input_file_path (orElseStr inc.tool_input_path inc.file_path)
  if containsSub error_text "ruff" || containsSub error_text "f401" then
    { suggested_fix := "Remove unused imports/variables then rerun ruff.",
      verify_cmd := ["ruff", "check", (truthy file_path).getD cwd] }
  else if containsSub error_text "pytest" || containsSub error_text "assert" ||
      containsSub error_text "test" then
    { suggested_fix := "Fix failing tests and rerun pytest.",
      verify_cmd := ["pytest", "-q"] }
  else if containsSub error_text "syntax" || containsSub error_text "compile" then
    match truthy file_path with
    | some fp =>
      { suggested_fix := "Fix Python syntax errors in " ++ fp ++ ".",
        verify_cmd := ["python3", "-m", "py_compile", fp] }
    | none =>
      { suggested_fix := "Fix Python syntax errors detected by compileall.",
        verify_cmd := ["python3", "-m", "compileall", "-q", cwd] }
  else if containsSub error_text "module" || containsSub error_text "import" then
    let module_name := (truthy inc.module_name).getD "<missing_module>"
    { suggested_fix := "Install or vendor missing module `" ++ module_name ++
        "` and verify import.",
      verify_cmd :=
        if module_name ≠ "<missing_module>" then
          ["python3", "-c", "import " ++ module_name]
        else
          ["python3", "-m", "compileall", "-q", cwd] }
  else if containsSub error_text "permission" then
    { suggested_fix := "Adjust file permissions for `" ++ ((truthy file_path).getD cwd) ++ "`.",
      verify_cmd := ["test", "-r", (truthy file_path).getD cwd] }
  else if containsSub error_text "not found" || containsSub error_text "no such file" then
    { suggested_fix := "Create or correct missing path `" ++ ((truthy file_path).getD cwd) ++ "`.",
      verify_cmd := ["test", "-e", (truthy file_path).getD cwd] }
  else
    { suggested_fix := "Investigate incident details and apply a minimal deterministic fix.",
      verify_cmd := ["python3", "-m", "compileall", "-q", cwd] }

/-! ### Learning store (`state_manager.py`)

The normalized pattern store: `learning["patterns"]` maps a pattern type to a
type bucket, which maps signatures to signature buckets.  Python dicts are
embedded as association lists preserving insertion order (`setdefault`
appends a new key at the end); keys stay unique because insertion happens
only when the key is absent. -/

/-- A legacy pattern entry (a dict in the flat-list-per-type schema) as read
by `_normalize_learning`.  `Option String` fields are `none` when the key is
absent or its value falsy (the source reads them through `or` chains or
`get` defaults). -/
structure LItem where
  signature : Option String := none
  error : Option String := none
  command : Option String := none
  typeKey : Option String := none
  outcome : Option String := none
  timestamp : Option String := none
  suggested_fix : String := ""
  verify_cmd : List String := []
  meta : JDict := []
deriving Repr, DecidableEq

/-- Result payload of a fix task (`result` dict built by
`FixQueue.process_one_task` / passed to `update_task_status`).  Fields that
only the attempted-stage result carries are optional. -/
structure TaskResult where
  executor : String := ""
  verify_cmd : List String := []
  returncode : Option Int := none
  stdout : Option String := none
  stderr : Option String := none
  duration_sec : Option ℚ := none
deriving Repr, DecidableEq

/-- The `example` payload stored with a pattern observation.  Its contents
are never branched on; the constructors record where the payload came from:
a replayed legacy item, a replayed already-normalized bucket dict (contents
elided), a generic caller dict, or the fix-task example dict built by
`FixQueue._record_pattern_for_status`. -/
inductive ExampleVal where
  | fromItem (i : LItem)
  | fromBucketDict
  | fromDict (d : JDict)
  | fixTaskExample (task_id : String) (incident : Incident) (result : Option TaskResult)
deriving Repr, DecidableEq

/-- One entry of a signature bucket's bounded example list. -/
structure ExampleEntry where
  timestamp : String
  outcome : String
  payload : ExampleVal
deriving Repr, DecidableEq

/-- A per-signature bucket (the inner dict created by
`_add_pattern_internal`'s `setdefault`). -/
structure SigBucket where
  count : Nat := 0
  success_count : Nat := 0
  failure_count : Nat := 0
  last_seen : Option String := none
  examples : List ExampleEntry := []
  suggested_fix : String := ""
  verify_cmd : List String := []
  meta : JDict := []
deriving Repr, DecidableEq

/-- A per-type bucket (the outer dict created by `_add_pattern_internal`'s
`setdefault`). -/
structure TypeBucket where
  total_count : Nat := 0
  success_count : Nat := 0
  failure_count : Nat := 0
  last_seen : Option String := none
  by_signature : List (String × SigBucket) := []
deriving Repr, DecidableEq

/-- The normalized learning store (`_init_learning` shape). -/
structure Learning where
  version : String
  created : String
  last_updated : String
  patterns : List (String × TypeBucket)
  insights : List JDict
deriving Repr, DecidableEq

/-- `_init_learning`, with the clock value passed in. -/
def init_learning (now : String) : Learning :=
  { version := "3.5.0", created := now, last_updated := now,
    patterns := [], insights := [] }

/-- `dict.setdefault(k, dflt)` followed by in-place mutation `f` of the
entry: updates the (unique) existing binding, or appends `(k, f dflt)`. -/
def updOrInsert {β : Type} (k : String) (dflt : β) (f : β → β) :
    List (String × β) → List (String × β)
  | [] => [(k, f dflt)]
  | (k', v) :: rest =>
    if k' = k then (k', f v) :: rest else (k', v) :: updOrInsert k dflt f rest

/-- `NexusStateManager.EXAMPLE_LIMIT`. -/
def EXAMPLE_LIMIT : Nat := 8

/-- `del examples[:-EXAMPLE_LIMIT]` applied when the list exceeds the limit. -/
def capExamples (xs : List ExampleEntry) : List ExampleEntry :=
  if xs.length > EXAMPLE_LIMIT then xs.drop (xs.length - EXAMPLE_LIMIT) else xs

/-- The fresh signature-bucket dict used as `setdefault` default. -/
def emptySigBucket : SigBucket := {}

/-- The fresh type-bucket dict used as `setdefault` default. -/
def emptyTypeBucket : TypeBucket := {}

/-- The signature-bucket mutation performed by `_add_pattern_internal` after
the two `setdefault`s. -/
def bumpSig (ts outcome_norm : String) (exampleV : Option ExampleVal)
    (sfix : String) (vcmd : Option (List String)) (meta : Option JDict)
    (sb : SigBucket) : SigBucket :=
  { sb with
    count := sb.count + 1,
    last_seen := some ts,
    success_count := if outcome_norm = "success" then sb.success_count + 1 else sb.success_count,
    failure_count := if outcome_norm = "failure" then sb.failure_count + 1 else sb.failure_count,
    suggested_fix := if sfix ≠ "" then sfix else sb.suggested_fix,
    verify_cmd :=
      match vcmd with
      | some v => if v ≠ [] then v else sb.verify_cmd
      | none => sb.verify_cmd,
    meta :=
      match meta with
      | some m => if m ≠ [] then m else sb.meta
      | none => sb.meta,
    examples :=
      match exampleV with
      | some e => capExamples (sb.examples ++ [⟨ts, outcome_norm, e⟩])
      | none => sb.examples }

/-- The type-bucket mutation performed by `_add_pattern_internal`. -/
def bumpType (safeSig ts outcome_norm : String) (exampleV : Option ExampleVal)
    (sfix : String) (vcmd : Option (List String)) (meta : Option JDict)
    (tb : TypeBucket) : TypeBucket :=
  { tb with
    total_count := tb.total_count + 1,
    last_seen := some ts,
    success_count := if outcome_norm = "success" then tb.success_count + 1 else tb.success_count,
    failure_count := if outcome_norm = "failure" then tb.failure_count + 1 else tb.failure_count,
    by_signature := updOrInsert safeSig emptySigBucket (bumpSig ts outcome_norm exampleV sfix vcmd meta)
      tb.by_signature }

/-- `str(pattern_type or "unknown").strip() or "unknown"`. -/
def safeTypeOf (pattern_type : String) : String :=
  let t := stripStr (if pattern_type = "" then "unknown" else pattern_type)
  if t = "" then "unknown" else t

/-- `str(signature or "unknown").strip().replace("\n", " ")`. -/
def safeSigOf (signature : String) : String :=
  replaceNl (stripStr (if signature = "" then "unknown" else signature))

/-- `timestamp or _now_iso()`. -/
def tsOf (timestamp : Option String) (now : String) : String :=
  (truthy timestamp).getD now

/-- `str(outcome or "unknown").lower()`. -/
def outcomeNormOf (outcome : String) : String :=
  lowerStr (if outcome = "" then "unknown" else outcome)

/-- Embedding of `NexusStateManager._add_pattern_internal`.  `now` stands
for `_now_iso()`. -/
def add_pattern_internal (now : String) (l : Learning) (pattern_type signature : String)
    (exampleV : Option ExampleVal) (suggested_fix : String)
    (verify_cmd : Option (List String)) (outcome : String) (meta : Option JDict)
    (timestamp : Option String := none) : Learning :=
  let patterns' := updOrInsert (safeTypeOf pattern_type) emptyTypeBucket
    (bumpType (safeSigOf signature) (tsOf timestamp now) (outcomeNormOf outcome)
      exampleV suggested_fix verify_cmd meta)
    l.patterns
  { l with patterns := patterns' }

/-- Embedding of the structured path of `NexusStateManager.add_pattern`
followed by `save_learning` (which stamps `last_updated`).  The legacy
dict-style call collapses to the same `_add_pattern_internal` invocation
after extracting the same fields, so both call styles are covered by
choosing the arguments accordingly.  The `load_learning` round trip is the
identity on an already-normalized store (proved below for
`normalize_learning`), so the store value is threaded directly. -/
def add_pattern (now : String) (l : Learning) (pattern_type : String)
    (signature : Option String) (exampleV : Option ExampleVal)
    (suggested_fix : String) (verify_cmd : Option (List String))
    (outcome : String) (meta : Option JDict) : Learning :=
  let sig := (truthy signature).getD pattern_type
  let l' := add_pattern_internal now l pattern_type sig exampleV suggested_fix
    verify_cmd outcome meta none
  { l' with last_updated := now }

/-! ### Raw persisted learning stores and `_normalize_learning`

A value found under `learning["patterns"][pattern_type]` in a persisted
store can be a normalized bucket dict (a dict carrying the key
`"by_signature"`, as only `_add_pattern_internal` produces), a legacy entry
dict without that key, a legacy list of entries (whose non-dict elements the
migration skips, modelled as `none`), or something that is neither a list
nor a dict. -/
inductive PValue where
  | bucket (b : TypeBucket)
  | ldict (d : LItem)
  | llist (items : List (Option LItem))
  | other
deriving Repr, DecidableEq

/-- A persisted learning store before normalization.  `patterns = none`
models a missing or non-dict `"patterns"` value; top-level keys other than
the ones `_init_learning` writes are carried opaquely in `extra`. -/
structure RawLearning where
  patterns : Option (List (String × PValue))
  version : Option String := none
  created : Option String := none
  last_updated : Option String := none
  insights : Option (List JDict) := none
  extra : JDict := []
deriving Repr, DecidableEq

/-- Injection of a normalized store into the raw representation (every type
bucket is a dict carrying `"by_signature"`). -/
def toRaw (l : Learning) : RawLearning :=
  { patterns := some (l.patterns.map (fun kv => (kv.1, PValue.bucket kv.2))),
    version := some l.version, created := some l.created,
    last_updated := some l.last_updated, insights := some l.insights, extra := [] }

/-- The already-normalized detection of `_normalize_learning`: every value
under `patterns` is a dict containing `"by_signature"`. -/
def pvalNormalized : PValue → Bool
  | PValue.bucket _ => true
  | _ => false

def alreadyNormalizedList (pats : List (String × PValue)) : Bool :=
  pats.all (fun kv => pvalNormalized kv.2)

def alreadyNormalizedRaw (l : RawLearning) : Bool :=
  match l.patterns with
  | some pats => alreadyNormalizedList pats
  | none => false

/-- Replay of one legacy list element through `_add_pattern_internal`
(the body of the `isinstance(items, list)` branch). -/
def replayListItem (now pattern_type : String) (acc : Learning) (item : LItem) : Learning :=
  let signature := replaceNl (stripStr
    ((orElseStr item.signature (orElseStr item.error
        (orElseStr item.command item.typeKey))).getD pattern_type))
  let outcome := lowerStr (item.outcome.getD "unknown")
  add_pattern_internal now acc pattern_type signature (some (ExampleVal.fromItem item))
    item.suggested_fix (some item.verify_cmd) outcome (some item.meta) item.timestamp

/-- One step of the legacy-list replay fold (carrying the `changed` flag;
non-dict entries are skipped). -/
def replayListStep (now pattern_type : String) (a : Learning × Bool)
    (it : Option LItem) : Learning × Bool :=
  match it with
  | none => a
  | some item => (replayListItem now pattern_type a.1 item, true)

/-- Replay of one `patterns` entry (the loop body of `_normalize_learning`);
returns the updated accumulator and `changed` flag. -/
def replayPatternsEntry (now : String) (acc : Learning × Bool)
    (kv : String × PValue) : Learning × Bool :=
  match kv.2 with
  | PValue.llist items =>
    items.foldl (replayListStep now kv.1) acc
  | PValue.ldict d =>
    (add_pattern_internal now acc.1 kv.1 kv.1 (some (ExampleVal.fromItem d))
      d.suggested_fix (some d.verify_cmd) (d.outcome.getD "unknown") (some d.meta)
      d.timestamp, true)
  | PValue.bucket _ =>
    (add_pattern_internal now acc.1 kv.1 kv.1 (some ExampleVal.fromBucketDict)
      "" (some []) "unknown" (some []) none, true)
  | PValue.other => acc

/-- Embedding of `NexusStateManager._normalize_learning`.  `now` stands for
the `_now_iso()` values stamped by `_init_learning` during a migration. -/
def normalize_learning (now : String) (l : RawLearning) : RawLearning × Bool :=
  match l.patterns with
  | none => (toRaw (init_learning now), true)
  | some pats =>
    if alreadyNormalizedList pats then (l, false)
    else
      let res := pats.foldl (replayPatternsEntry now) (init_learning now, false)
      if res.2 then (toRaw res.1, true) else (l, false)

/-! ### Metrics store (`state_manager.py`)

Only the metrics fields touched by the embedded operations are carried.
Counters are `Int` (Python ints; the claims under test concern their signs),
running means are exact rationals: the `round(x, 4)` applied by the source
to the stored means is omitted, which does not affect any counter field. -/
structure Metrics where
  incidents_total : Int := 0
  incidents_open : Int := 0
  fixes_completed : Int := 0
  fixes_failed : Int := 0
  tasks_completed : Int := 0
  tasks_successful : Int := 0
  tasks_failed : Int := 0
  mean_time_to_verify_fix : Option ℚ := none
  mean_time_to_close_task : Option ℚ := none
deriving Repr, DecidableEq

/-- `_metrics_defaults` restricted to the carried fields. -/
def metricsDefaults : Metrics := {}

/-- The metrics effect of `NexusStateManager.record_incident` (the function
also appends the incident to the incidents log, which is modelled where the
whole system state is threaded). -/
def record_incident_metrics (m : Metrics) : Metrics :=
  { m with incidents_total := m.incidents_total + 1,
           incidents_open := m.incidents_open + 1 }

/-- Embedding of `NexusStateManager.record_fix_verification`. -/
def record_fix_verification (success : Bool) (duration_seconds : ℚ)
    (m : Metrics) : Metrics :=
  let m1 :=
    if success then { m with fixes_completed := m.fixes_completed + 1 }
    else { m with fixes_failed := m.fixes_failed + 1 }
  let total : Int := m1.fixes_completed + m1.fixes_failed
  let newMean : ℚ :=
    match m1.mean_time_to_verify_fix with
    | none => duration_seconds
    | some cur =>
      if total ≤ 1 then duration_seconds
      else (cur * ((total : ℚ) - 1) + duration_seconds) / (total : ℚ)
  let m2 := { m1 with mean_time_to_verify_fix := some newMean }
  if success then
    { m2 with incidents_open := max 0 (m2.incidents_open - 1) }
  else m2

/-- Embedding of `NexusStateManager.record_task_close`. -/
def record_task_close (success : Bool) (duration_seconds : ℚ)
    (m : Metrics) : Metrics :=
  let m1 := { m with tasks_completed := m.tasks_completed + 1 }
  let m2 :=
    if success then { m1 with tasks_successful := m1.tasks_successful + 1 }
    else { m1 with tasks_failed := m1.tasks_failed + 1 }
  let total : Int := m2.tasks_completed
  let newMean : ℚ :=
    match m2.mean_time_to_close_task with
    | none => duration_seconds
    | some cur =>
      if total ≤ 1 then duration_seconds
      else (cur * ((total : ℚ) - 1) + duration_seconds) / (total : ℚ)
  { m2 with mean_time_to_close_task := some newMean }

/-- The two metrics-store operations interleaved by claim C9. -/
inductive MetricsOp where
  | recIncident
  | recFixVerification (success : Bool) (duration : ℚ)
deriving Repr

def applyMetricsOp (m : Metrics) : MetricsOp → Metrics
  | MetricsOp.recIncident => record_incident_metrics m
  | MetricsOp.recFixVerification s d => record_fix_verification s d m

/-! ### Fix queue (`hooks/fix_queue.py`)

The queue file `fix_queue.jsonl` is modelled as the list of task records it
holds (a missing file reads as the empty list); the pattern store and the
metrics store complete the system state a `FixQueue` call can touch. -/

/-- One entry of a task's append-only history.  `add_fix_task` writes the
initial entry with a `note` and no `result`; `update_task_status` writes
entries with `result or {}` (the empty dict stands for an absent result and
is modelled as `none`). -/
structure HistoryEntry where
  timestamp : String
  status : String
  note : Option String := none
  result : Option TaskResult := none
deriving Repr, DecidableEq

/-- A fix-task record as written by `FixQueue.add_fix_task` and mutated by
`update_task_status`. -/
structure FixTask where
  id : String
  timestamp : String
  incident : Incident
  suggested_fix : String
  verify_cmd : List String
  status : String
  attempts : Nat
  created_by : String
  meta : JDict
  history : List HistoryEntry
  last_updated : Option String := none
  result : Option TaskResult := none
deriving Repr, DecidableEq

/-- The durable state a `FixQueue` invocation can read or write: the queue
file, the learning-pattern store and the metrics store. -/
structure SysState where
  queue : List FixTask
  learning : Learning
  metrics : Metrics
deriving Repr, DecidableEq

/-- Embedding of `FixQueue.add_fix_task`; `now` stands for `_now_iso()` and
`task_id` for the generated `fix_<ts>_<uuid>` identifier. -/
def add_fix_task (now task_id : String) (incident : Incident)
    (suggested_fix : String) (verify_cmd : List String)
    (created_by : String := "self_heal") (meta : JDict := [])
    (s : SysState) : SysState × String :=
  let task : FixTask :=
    { id := task_id, timestamp := now, incident := incident,
      suggested_fix := suggested_fix, verify_cmd := verify_cmd,
      status := "pending", attempts := 0, created_by := created_by,
      meta := meta,
      history := [{ timestamp := now, status := "pending", note := some "task_created" }] }
  ({ s with queue := s.queue ++ [task] }, task_id)

/-- Embedding of `FixQueue.get_next_fix`: first task in file order whose
status is `"pending"`. -/
def get_next_fix (tasks : List FixTask) : Option FixTask :=
  tasks.find? (fun task => task.status == "pending")

/-- The per-task mutation of the `update_task_status` loop for a matching
task id. -/
def applyStatusUpd (now status : String) (result : Option TaskResult)
    (task : FixTask) : FixTask :=
  { task with
    status := status,
    attempts := if status = "attempted" then task.attempts + 1 else task.attempts,
    last_updated := some now,
    result := match result with | some r => some r | none => task.result,
    history := task.history ++
      [{ timestamp := now, status := status, result := result }] }

/-- Embedding of `FixQueue._record_pattern_for_status` (invoked after the
rewritten queue is persisted; reloads the queue and records a terminal
pattern observation through the state manager). -/
def record_pattern_for_status (now : String) (s : SysState)
    (task_id status : String) (result : Option TaskResult) : SysState :=
  if status = "completed" ∨ status = "failed" then
    match s.queue.find? (fun item => item.id == task_id) with
    | none => s
    | some task =>
      let signature :=
        (orElseStr task.incident.signature
          (orElseStr task.incident.failed_check task.incident.incident_class)).getD
          "fix_task"
      let outcome := if status = "completed" then "success" else "failure"
      let pattern_type := "fix_task_" ++ status
      let learning' := add_pattern now s.learning pattern_type (some signature)
        (some (ExampleVal.fixTaskExample task_id task.incident result))
        task.suggested_fix (some task.verify_cmd) outcome
        (some [("status", status)])
      { s with learning := learning' }
  else s

/-- Embedding of `FixQueue.update_task_status`: mutates every task whose id
matches, rewrites the queue file, then records the terminal pattern; when no
task matches it returns `False` without touching any state. -/
def update_task_status (now : String) (s : SysState) (task_id status : String)
    (result : Option TaskResult := none) : SysState × Bool :=
  let updated := s.queue.any (fun task => task.id == task_id)
  if updated then
    let queue' := s.queue.map (fun task =>
      if task.id == task_id then applyStatusUpd now status result task else task)
    let s' := record_pattern_for_status now { s with queue := queue' } task_id status result
    (s', true)
  else (s, false)

/-- Outcome of running `verify_cmd` as a subprocess with `timeout=300`:
either the process finished with a return code and captured output, or the
300-second timeout expired (in which case `subprocess.run` raises
`TimeoutExpired`). -/
inductive ExecOutcome where
  | finished (returncode : Int) (stdout stderr : String)
  | timedOut
deriving Repr, DecidableEq

/-- The summary dict returned by `FixQueue.process_one_task`. -/
structure TaskSummary where
  status : String
  task_id : Option String := none
  verify_cmd : Option (List String) := none
  returncode : Option Int := none
  duration_sec : Option ℚ := none
deriving Repr, DecidableEq

/-- Embedding of `FixQueue.process_one_task`.  `nowA`/`nowB` stand for the
`_now_iso()` values of the two status updates, `exec` for the subprocess
outcome and `duration` for the measured wall-clock duration.  The returned
`Except` is `Except.error ()` when `subprocess.TimeoutExpired` propagates
out of the call (the source wraps the subprocess in no handler); the paired
state is the durable state at that point — the task has already been
rewritten with status `"attempted"`. -/
def process_one_task (nowA nowB : String) (executor : String)
    (exec : ExecOutcome) (duration : ℚ) (s : SysState) :
    SysState × Except Unit TaskSummary :=
  match get_next_fix s.queue with
  | none => (s, Except.ok { status := "no_pending_task" })
  | some task =>
    let verify_cmd := if task.verify_cmd ≠ [] then task.verify_cmd
      else ["echo", "missing_verify_cmd"]
    let s1 := (update_task_status nowA s task.id "attempted"
      (some { executor := executor, verify_cmd := verify_cmd })).1
    match exec with
    | ExecOutcome.timedOut => (s1, Except.error ())
    | ExecOutcome.finished rc out err =>
      let success := rc = 0
      let final_status := if success then "completed" else "failed"
      let result : TaskResult :=
        { executor := executor, verify_cmd := verify_cmd,
          returncode := some rc, stdout := some (takeLast 4000 out),
          stderr := some (takeLast 4000 err), duration_sec := some duration }
      let s2 := (update_task_status nowB s1 task.id final_status (some result)).1
      let s3 := { s2 with metrics := record_fix_verification success duration s2.metrics }
      (s3, Except.ok
        { status := final_status, task_id := some task.id,
          verify_cmd := some verify_cmd, returncode := some rc,
          duration_sec := some duration })

/-- A fix-queue operation, as quantified over by the queue claims; each
carries the clock/id/subprocess data its Python counterpart draws from the
environment. -/
inductive QOp where
  | add (now task_id : String) (incident : Incident) (suggested_fix : String)
      (verify_cmd : List String) (created_by : String) (meta : JDict)
  | upd (now task_id status : String) (result : Option TaskResult)
  | processOne (nowA nowB executor : String) (exec : ExecOutcome) (duration : ℚ)

/-- The durable-state effect of one operation (for `processOne`, the state
left behind even when the timeout exception propagates). -/
def applyQOp (s : SysState) : QOp → SysState
  | QOp.add now task_id incident sfix vcmd created_by meta =>
    (add_fix_task now task_id incident sfix vcmd created_by meta s).1
  | QOp.upd now task_id status result =>
    (update_task_status now s task_id status result).1
  | QOp.processOne nowA nowB executor exec duration =>
    (process_one_task nowA nowB executor exec duration s).1

def applyQOps (s : SysState) (ops : List QOp) : SysState :=
  ops.foldl applyQOp s

/-- The initial system state: no queue file, fresh learning and metrics
stores (`t0` stands for the creation timestamps). -/
def initSysState (t0 : String) : SysState :=
  { queue := [], learning := init_learning t0, metrics := metricsDefaults }

/-! ### Task manager (`task_manager.py`) -/

/-- A unit-of-work task record (`current_task.json` content / closed copy
appended to the lifecycle log). -/
structure TaskRec where
  id : String
  goal : String
  status : String
  started_at : String
  updated_at : String
  progress_events : Nat := 0
  notes : List String := []
  ended_at : Option String := none
  duration_sec : Option ℚ := none
  close_note : Option String := none
deriving Repr, DecidableEq

/-- One line of the append-only task lifecycle log / session history. -/
structure TMEvent where
  event : String
  task : Option TaskRec := none
  data : JDict := []
deriving Repr, DecidableEq

/-- The durable state a `TaskManager` call can touch: the current-task file
(`none` for a missing, unparsable or empty file), the lifecycle log, the
session history, the metrics store, and the `active_task` pointer inside the
MSV context. -/
structure TMState where
  currentTask : Option TaskRec := none
  tasksLog : List TMEvent := []
  history : List TMEvent := []
  metrics : Metrics := {}
  msvActive : Option String := none
deriving Repr, DecidableEq

/-- Embedding of `TaskManager._load_current_task`: the stored record counts
only while its status is `"active"`. -/
def load_current_task (s : TMState) : Option TaskRec :=
  match s.currentTask with
  | some t => if t.status = "active" then some t else none
  | none => none

/-- Embedding of `TaskManager.start_task`; `now` stands for `_now_iso()` and
`task_id` for the generated `task_<ts>_<uuid>` identifier.  A raised
`RuntimeError` is modelled as `Except.error` carrying the message; the
exception aborts the call before any write, so the caller's durable state is
unchanged on that path. -/
def start_task (now task_id goal : String) (s : TMState) :
    Except String (TaskRec × TMState) :=
  match load_current_task s with
  | some current => Except.error ("Active task already exists: " ++ current.id)
  | none =>
    let task : TaskRec :=
      { id := task_id, goal := goal, status := "active",
        started_at := now, updated_at := now }
    Except.ok (task,
      { s with
        currentTask := some task,
        tasksLog := s.tasksLog ++ [{ event := "task_started", task := some task }],
        history := s.history ++
          [{ event := "task_started", data := [("task_id", task.id), ("goal", goal)] }],
        msvActive := some task.id })

/-- Embedding of `TaskManager.close_task`; `durationSec` stands for the
difference of the parsed ISO timestamps (0.0 when either fails to parse). -/
def close_task (now : String) (success : Bool) (note : String)
    (durationSec : ℚ) (s : TMState) : Except String (TaskRec × TMState) :=
  match load_current_task s with
  | none => Except.error "No active task"
  | some task =>
    let closed : TaskRec :=
      { task with
        status := if success then "completed" else "failed",
        ended_at := some now, duration_sec := some durationSec,
        close_note := some note, updated_at := now }
    Except.ok (closed,
      { s with
        currentTask := none,
        tasksLog := s.tasksLog ++ [{ event := "task_closed", task := some closed }],
        history := s.history ++
          [{ event := "task_closed", data := [("task_id", task.id), ("note", note)] }],
        metrics := record_task_close success durationSec s.metrics,
        msvActive := none })

/-- Number of active tasks the process-wide state can expose. -/
def activeCount (s : TMState) : Nat :=
  match load_current_task s with
  | some _ => 1
  | none => 0

/-! ### Quality gate checks (`hooks/quality_gate.py`)

`quality_checks` consults the file system, the installed tools and the
outcomes of the check subprocesses; all of that environment input is
gathered in `GateEnv`.  The lint-rule-code regex search of
`_signature_from_output` is carried as the oracle field `ruffMatch` (its
input strings are in the environment as well). -/
structure GateEnv where
  gitPresent : Bool
  gitDiffFails : Bool := false
  gitAdded : Nat := 0
  gitDeleted : Nat := 0
  pyprojectExists : Bool := false
  requirementsExists : Bool := false
  hasPyChange : Bool := false
  packageJsonExists : Bool := false
  hasJsChange : Bool := false
  ruffAvailable : Bool := false
  ruffRc : Int := 0
  ruffOut : String := ""
  ruffErr : String := ""
  ruffMatch : Option String := none
  pytestAvailable : Bool := false
  testsDirExists : Bool := false
  pytestRc : Int := 0
  pytestOut : String := ""
  pytestErr : String := ""
  compileallRc : Int := 0
  compileallOut : String := ""
  compileallErr : String := ""
  npmAvailable : Bool := false
  npmRc : Int := 0
  npmOut : String := ""
  npmErr : String := ""
deriving Repr, DecidableEq

/-- One check result dict (`_check_result`); `detail` entries are carried
stringified. -/
structure CheckResult where
  name : String
  ok : Bool
  signature : String
  detail : JDict
  stdout : String := ""
  stderr : String := ""
deriving Repr, DecidableEq

/-- Embedding of `quality_gate._signature_from_output`; `ruffMatch` is the
result of the `re.search` for a lint rule code over the combined output. -/
def signature_from_output (check_name : String) (stdout stderr : String)
    (deltaDetail : String) (ruffMatch : Option String) : String :=
  let output := stdout ++ "\n" ++ stderr
  if check_name = "ruff" then
    match ruffMatch with
    | some code => "ruff:" ++ code
    | none => "ruff:fail"
  else if check_name = "pytest" then "pytest:fail"
  else if check_name = "py_compileall" then
    if containsSub output "SyntaxError" then "compileall:SyntaxError"
    else "compileall:fail"
  else if check_name = "npm_test" then "npm_test:fail"
  else if check_name = "diff_limit" then "diff:limit_exceeded:" ++ deltaDetail
  else check_name ++ ":fail"

/-- Embedding of `quality_gate._check_result`. -/
def check_result (name : String) (ok : Bool) (detail : JDict)
    (deltaDetail : String) (ruffMatch : Option String)
    (stdout : String := "") (stderr : String := "") : CheckResult :=
  { name := name, ok := ok,
    signature := if ok then "" else
      signature_from_output name stdout stderr deltaDetail ruffMatch,
    detail := detail, stdout := stdout, stderr := stderr }

/-- The ordered check list built by `quality_gate.quality_checks`. -/
def gateChecksList (env : GateEnv) (diff_limit : Nat := 200) : List CheckResult :=
  let checks0 : List CheckResult :=
    if env.gitPresent then
      let delta := if env.gitDiffFails then 0 else env.gitAdded + env.gitDeleted
      [check_result "diff_limit" (delta ≤ diff_limit)
        [("delta", toString delta)] (toString delta) none]
    else []
  let is_python := env.pyprojectExists || env.requirementsExists || env.hasPyChange
  let is_node := env.packageJsonExists || env.hasJsChange
  let checksPy : List CheckResult :=
    if is_python then
      (if env.ruffAvailable then
        [check_result "ruff" (env.ruffRc = 0) [("returncode", toString env.ruffRc)]
          "" env.ruffMatch env.ruffOut env.ruffErr]
       else []) ++
      (if env.pytestAvailable && env.testsDirExists then
        [check_result "pytest" (env.pytestRc = 0) [("returncode", toString env.pytestRc)]
          "" none env.pytestOut env.pytestErr]
       else []) ++
      [check_result "py_compileall" (env.compileallRc = 0)
        [("returncode", toString env.compileallRc)] "" none
        env.compileallOut env.compileallErr]
    else []
  let checksNode : List CheckResult :=
    if is_node && env.packageJsonExists && env.npmAvailable then
      [check_result "npm_test" (env.npmRc = 0) [("returncode", toString env.npmRc)]
        "" none env.npmOut env.npmErr]
    else []
  checks0 ++ checksPy ++ checksNode

/-- The pass verdict of `quality_checks`:
`all(check["ok"] for check in checks) if checks else True`. -/
def gatePassed (checks : List CheckResult) : Bool :=
  if checks.isEmpty then true else checks.all (fun c => c.ok)

/-- Embedding of `quality_gate.quality_checks`. -/
def quality_checks (env : GateEnv) (diff_limit : Nat := 200) :
    Bool × List CheckResult :=
  let checks := gateChecksList env diff_limit
  (gatePassed checks, checks)

/-- Embedding of `quality_gate.run`: the subprocess wrapper that converts a
`TimeoutExpired` into the failing triple `(124, "", "timeout: ...")` (the
exception text carried after `"timeout: "` is abbreviated). -/
def gate_run (outcome : ExecOutcome) : Int × String × String :=
  match outcome with
  | ExecOutcome.finished rc out err => (rc, takeLast 4000 out, takeLast 4000 err)
  | ExecOutcome.timedOut => (124, "", "timeout: TimeoutExpired")

/-- A missing-module incident as `nexus_self_heal.main` would emit it (no
`module_name` key is ever attached by any producer in the repository). -/
def fooIncident : Incident :=
  { error := some "ModuleNotFoundError: No module named \x27foo\x27",
    signature := some "incident:import:foo",
    incident_class := some "import_error",
    cwd := some "/proj" }

/-! ### Invariant checkers -/

/-- Sum of the per-signature `count` fields of a type bucket. -/
def sumSigCounts (bs : List (String × SigBucket)) : Nat :=
  (bs.map (fun kv => kv.2.count)).sum

/-- The pattern-store invariant of claim C4 for one type bucket. -/
def typeOkB (tb : TypeBucket) : Bool :=
  (tb.total_count == sumSigCounts tb.by_signature) &&
    decide (tb.success_count + tb.failure_count ≤ tb.total_count)

/-- The pattern-store invariant of claim C4 for a whole store. -/
def storeOkB (l : Learning) : Bool :=
  l.patterns.all (fun kv => typeOkB kv.2)

/-- Number of history entries recorded with status `"attempted"`. -/
def countAttempted (h : List HistoryEntry) : Nat :=
  (h.filter (fun e => e.status == "attempted")).length

/-- The attempts/history invariant of claim C3 for one task. -/
def attemptsOkTask (t : FixTask) : Bool :=
  t.attempts == countAttempted t.history

/-- The attempts/history invariant of claim C3 for the whole queue. -/
def attemptsOkB (s : SysState) : Bool :=
  s.queue.all attemptsOkTask

/-- One step of the strict status chain claimed by C3:
pending → attempted → {completed, failed}. -/
def allowedStep (a b : String) : Bool :=
  (a == "pending" && b == "attempted") ||
  (a == "attempted" && (b == "completed" || b == "failed"))

/-- Whether a task's recorded status sequence only ever moves along the
strict chain. -/
def chainOk : List String → Bool
  | [] => true
  | [_] => true
  | a :: b :: rest => allowedStep a b && chainOk (b :: rest)

/-- The status-transition discipline claimed by C3 for the whole queue. -/
def transitionsOkB (s : SysState) : Bool :=
  s.queue.all (fun t => chainOk (t.history.map (fun e => e.status)))

/-- An `add_pattern` observation (the argument tuple of one
`NexusStateManager.add_pattern` call, with its clock value). -/
structure AddObs where
  now : String
  pattern_type : String
  signature : Option String
  exampleV : Option ExampleVal
  suggested_fix : String
  verify_cmd : Option (List String)
  outcome : String
  meta : Option JDict

def applyAddObs (l : Learning) (o : AddObs) : Learning :=
  add_pattern o.now l o.pattern_type o.signature o.exampleV o.suggested_fix
    o.verify_cmd o.outcome o.meta

/-! ### Concrete fixtures used by counterexamples and witnesses -/

example : containsSub (errorTextOf fooIncident) "no module named \x27foo\x27" = true := by decide
example : incident_to_fix_plan "/x" fooIncident =
    { suggested_fix := "Install or vendor missing module `<missing_module>` and verify import.",
      verify_cmd := ["python3", "-m", "compileall", "-q", "/proj"] } := by decide

/-- An incident that does carry a truthy `module_name` (no repository
producer builds one, but the field is what `_incident_to_fix_plan` reads). -/
def requestsIncident : Incident :=
  { error := some "ModuleNotFoundError: No module named \x27requests\x27",
    module_name := some "requests", cwd := some "/proj" }

/-- A gate environment with no version control and no detected stack:
`quality_checks` builds an empty check list there. -/
def bareEnv : GateEnv := { gitPresent := false }

/-- A pending fix task whose verify command sleeps past the 300-second
subprocess timeout. -/
def sleepTask : FixTask :=
  { id := "fix_20260101000000_aaaaaa", timestamp := "t0",
    incident := { error := some "slow" }, suggested_fix := "wait",
    verify_cmd := ["sleep", "301"], status := "pending", attempts := 0,
    created_by := "self_heal", meta := [],
    history := [{ timestamp := "t0", status := "pending", note := some "task_created" }] }

/-- System state holding only `sleepTask`. -/
def sleepState : SysState :=
  { queue := [sleepTask], learning := init_learning "t0", metrics := {} }

/-- A completed task (no pending work left in the queue). -/
def doneTask : FixTask :=
  { sleepTask with id := "fix_20260101000000_bbbbbb", status := "completed" }

/-- System state with no pending task. -/
def doneState : SysState :=
  { queue := [doneTask], learning := init_learning "t0", metrics := {} }

/-- An active unit-of-work task. -/
def activeRec : TaskRec :=
  { id := "task_20260101000000_cccccc", goal := "ship", status := "active",
    started_at := "t0", updated_at := "t0" }

/-- Task-manager state with `activeRec` active. -/
def activeTMState : TMState := { currentTask := some activeRec }

/-! ### Claim theorems -/

/-- C7: whenever the ordered check list produced for a change event is empty
(no version control, no applicable stack), `quality_checks` reports passed —
the pass predicate is vacuously true over zero checks. -/
theorem quality_checks_empty_passes (env : GateEnv) (diff_limit : Nat)
    (h : (quality_checks env diff_limit).2 = []) :
    (quality_checks env diff_limit).1 = true := by
  have hch : gateChecksList env diff_limit = [] := h
  show gatePassed (gateChecksList env diff_limit) = true
  rw [hch]
  rfl

/-- Witness for C7: the environment with no version control and no stack
markers produces zero checks, and the gate reports passed. -/
theorem quality_checks_empty_passes_witness :
    (quality_checks bareEnv 200).2 = [] ∧ (quality_checks bareEnv 200).1 = true :=
  ⟨by decide, quality_checks_empty_passes bareEnv 200 (by decide)⟩

/-- C9: the `incidents_open` counter stays non-negative under every
interleaving of `record_incident` and `record_fix_verification` starting
from the metric defaults — the decrement applied on a successful fix
verification is clamped at zero. -/
theorem incidents_open_nonneg (ops : List MetricsOp) :
    0 ≤ (ops.foldl applyMetricsOp metricsDefaults).incidents_open := by
  have step : ∀ (m : Metrics) (op : MetricsOp), 0 ≤ m.incidents_open →
      0 ≤ (applyMetricsOp m op).incidents_open := by
    intro m op h
    cases op with
    | recIncident =>
      simp only [applyMetricsOp, record_incident_metrics]
      omega
    | recFixVerification success d =>
      simp only [applyMetricsOp, record_fix_verification]
      cases success with
      | true => simp
      | false => simpa using h
  have gen : ∀ (ops : List MetricsOp) (m : Metrics), 0 ≤ m.incidents_open →
      0 ≤ (ops.foldl applyMetricsOp m).incidents_open := by
    intro ops
    induction ops with
    | nil => intro m h; simpa using h
    | cons op rest ih =>
      intro m h
      simpa using ih (applyMetricsOp m op) (step m op h)
  exact gen ops metricsDefaults (by decide)

/-- C10: `update_task_status` called with a task id not present in the queue
returns `False` and leaves the queue, the pattern store and the metrics
unchanged. -/
theorem update_task_status_missing_id (now : String) (s : SysState)
    (task_id status : String) (result : Option TaskResult)
    (h : s.queue.all (fun t => !(t.id == task_id)) = true) :
    update_task_status now s task_id status result = (s, false) := by
  have hany : s.queue.any (fun t => t.id == task_id) = false := by
    rw [List.any_eq_false]
    intro t ht
    have := List.all_eq_true.mp h t ht
    simpa using this
  unfold update_task_status
  rw [hany]
  rfl

/-- Witness for C10: a concrete queue without the requested id is returned
untouched with result `False`. -/
theorem update_task_status_missing_id_witness :
    doneState.queue.all (fun t => !(t.id == "fix_nope")) = true ∧
    update_task_status "t9" doneState "fix_nope" "completed" none = (doneState, false) :=
  ⟨by decide, update_task_status_missing_id "t9" doneState "fix_nope" "completed" none (by decide)⟩

/-- C8: `process_one_task` invoked when no task has status `"pending"`
returns the no-pending-task result and leaves the queue file, pattern store
and metrics exactly as they were. -/
theorem process_one_task_no_pending (nowA nowB executor : String)
    (exec : ExecOutcome) (duration : ℚ) (s : SysState)
    (h : s.queue.all (fun t => !(t.status == "pending")) = true) :
    process_one_task nowA nowB executor exec duration s =
      (s, Except.ok { status := "no_pending_task" }) := by
  have hfind : get_next_fix s.queue = none := by
    unfold get_next_fix
    rw [List.find?_eq_none]
    intro t ht
    have := List.all_eq_true.mp h t ht
    simpa using this
  unfold process_one_task
  rw [hfind]

/-- Witness for C8: a queue holding only a completed task is a no-op for
`process_one_task`. -/
theorem process_one_task_no_pending_witness :
    doneState.queue.all (fun t => !(t.status == "pending")) = true ∧
    process_one_task "t1" "t2" "manual" (ExecOutcome.finished 0 "" "") 1 doneState =
      (doneState, Except.ok { status := "no_pending_task" }) :=
  ⟨by decide, process_one_task_no_pending "t1" "t2" "manual"
    (ExecOutcome.finished 0 "" "") 1 doneState (by decide)⟩

/-- C6: `start_task` while a task is active fails with an error naming the
existing task's id and performs no write; `close_task` with no active task
fails; and the single current-task pointer admits at most one active task at
any time. -/
theorem single_active_task_discipline :
    (∀ (s : TMState) (now task_id goal : String) (cur : TaskRec),
      load_current_task s = some cur →
      start_task now task_id goal s =
        Except.error ("Active task already exists: " ++ cur.id)) ∧
    (∀ (s : TMState) (now : String) (success : Bool) (note : String) (d : ℚ),
      load_current_task s = none →
      close_task now success note d s = Except.error "No active task") ∧
    (∀ s : TMState, activeCount s ≤ 1) := by
  refine ⟨?_, ?_, ?_⟩
  · intro s now task_id goal cur h
    unfold start_task
    rw [h]
  · intro s now success note d h
    unfold close_task
    rw [h]
  · intro s
    unfold activeCount
    cases load_current_task s <;> simp

/-- Witness for C6: with a concrete active task, `start_task` reports that
task's id; with the empty state, `close_task` fails. -/
theorem single_active_task_discipline_witness :
    load_current_task activeTMState = some activeRec ∧
    start_task "t1" "task_new" "more work" activeTMState =
      Except.error ("Active task already exists: " ++ activeRec.id) ∧
    load_current_task {} = none ∧
    close_task "t1" true "done" 0 {} = Except.error "No active task" :=
  ⟨by decide,
   single_active_task_discipline.1 activeTMState "t1" "task_new" "more work" activeRec (by decide),
   by decide,
   single_active_task_discipline.2.1 {} "t1" true "done" 0 (by decide)⟩

/-- C2 (code bug): `quality_gate.run` converts a check-subprocess timeout
into the failing triple with return code 124, but
`FixQueue.process_one_task` wraps its `subprocess.run(verify_cmd,
timeout=300)` in no handler: on a verify command that outlives the
300-second timeout the `subprocess.TimeoutExpired` escapes the call
(`Except.error ()` here) and the task is left with status `"attempted"`,
never transitioned to `"failed"` and with no result returned. -/
theorem process_one_task_timeout_raises :
    (process_one_task "t1" "t2" "manual" ExecOutcome.timedOut 301 sleepState).2 =
      Except.error () ∧
    ((process_one_task "t1" "t2" "manual" ExecOutcome.timedOut 301 sleepState).1.queue.map
      (fun t => t.status)) = ["attempted"] ∧
    (gate_run ExecOutcome.timedOut).1 = 124 := by
  refine ⟨?_, ?_, ?_⟩ <;> rfl

/-- C1 counterexample: an incident whose error text contains
`No module named 'foo'` but carries no `module_name` key — exactly what
`nexus_self_heal.main` and `quality_gate.main` emit, since neither ever sets
`module_name` — receives the compileall fallback as `verify_cmd`, not a
Python import of `foo`. -/
theorem missing_module_plan_cex :
    containsSub (fooIncident.error.getD "") "No module named \x27foo\x27" = true ∧
    (incident_to_fix_plan "/x" fooIncident).verify_cmd =
      ["python3", "-m", "compileall", "-q", "/proj"] ∧
    (incident_to_fix_plan "/x" fooIncident).verify_cmd ≠
      ["python3", "-c", "import foo"] := by
  refine ⟨by decide, by decide, by decide⟩

/-- C1 (amended): when the missing-module rule of `_incident_to_fix_plan`
fires (error text mentions `module` or `import` and no earlier rule
matched), the produced `verify_cmd` is a Python import of the incident's
truthy `module_name` field when one is present (and differs from the
`"<missing_module>"` sentinel); when the field is absent or falsy, the
`verify_cmd` is the compileall fallback over the incident's working
directory — the module name is never extracted from the error text. -/
theorem missing_module_plan_amended (ambientCwd : String) (inc : Incident)
    (h1 : (containsSub (errorTextOf inc) "ruff" ||
      containsSub (errorTextOf inc) "f401") = false)
    (h2 : (containsSub (errorTextOf inc) "pytest" ||
      containsSub (errorTextOf inc) "assert" ||
      containsSub (errorTextOf inc) "test") = false)
    (h3 : (containsSub (errorTextOf inc) "syntax" ||
      containsSub (errorTextOf inc) "compile") = false)
    (h4 : (containsSub (errorTextOf inc) "module" ||
      containsSub (errorTextOf inc) "import") = true) :
    (truthy inc.module_name = none →
      (incident_to_fix_plan ambientCwd inc).verify_cmd =
        ["python3", "-m", "compileall", "-q", (truthy inc.cwd).getD ambientCwd]) ∧
    (∀ m : String, truthy inc.module_name = some m → m ≠ "<missing_module>" →
      (incident_to_fix_plan ambientCwd inc).verify_cmd =
        ["python3", "-c", "import " ++ m]) := by
  constructor
  · intro hm
    simp only [incident_to_fix_plan, h1, h2, h3, h4, hm, Bool.false_eq_true,
      if_false, if_true, Option.getD_none]
    simp
  · intro m hm hne
    simp only [incident_to_fix_plan, h1, h2, h3, h4, hm, Bool.false_eq_true,
      if_false, if_true, Option.getD_some]
    simp [hne]

/-- Witness for the amended C1: an incident carrying `module_name =
"requests"` gets an import verify command, and `fooIncident` (no
`module_name`) gets the compileall fallback. -/
theorem missing_module_plan_amended_witness :
    (incident_to_fix_plan "/x" requestsIncident).verify_cmd =
      ["python3", "-c", "import requests"] ∧
    (incident_to_fix_plan "/x" fooIncident).verify_cmd =
      ["python3", "-m", "compileall", "-q", "/proj"] :=
  ⟨(missing_module_plan_amended "/x" requestsIncident (by decide) (by decide)
      (by decide) (by decide)).2 "requests" (by decide) (by decide),
   (missing_module_plan_amended "/x" fooIncident (by decide) (by decide)
      (by decide) (by decide)).1 (by decide)⟩

/-! ### Pattern-store counter lemmas (claim C4) -/

lemma bumpSig_count (ts o : String) (e : Option ExampleVal) (sx : String)
    (v : Option (List String)) (m : Option JDict) (sb : SigBucket) :
    (bumpSig ts o e sx v m sb).count = sb.count + 1 := rfl

lemma sumSigCounts_updOrInsert (k ts o : String) (e : Option ExampleVal)
    (sx : String) (v : Option (List String)) (m : Option JDict) :
    ∀ bs : List (String × SigBucket),
      sumSigCounts (updOrInsert k emptySigBucket (bumpSig ts o e sx v m) bs) =
        sumSigCounts bs + 1 := by
  intro bs
  induction bs with
  | nil => rfl
  | cons hd tl ih =>
    obtain ⟨k', sb⟩ := hd
    by_cases hk : k' = k
    · simp [updOrInsert, hk, sumSigCounts, bumpSig_count]
      omega
    · simp only [updOrInsert, if_neg hk, sumSigCounts, List.map_cons, List.sum_cons]
      have := ih
      simp only [sumSigCounts] at this
      omega

lemma typeOkB_iff (tb : TypeBucket) :
    typeOkB tb = true ↔
      tb.total_count = sumSigCounts tb.by_signature ∧
      tb.success_count + tb.failure_count ≤ tb.total_count := by
  simp [typeOkB]

lemma typeOkB_bumpType (sig ts o : String) (e : Option ExampleVal)
    (sx : String) (v : Option (List String)) (m : Option JDict)
    (tb : TypeBucket) (h : typeOkB tb = true) :
    typeOkB (bumpType sig ts o e sx v m tb) = true := by
  rw [typeOkB_iff] at h ⊢
  obtain ⟨h1, h2⟩ := h
  constructor
  · show tb.total_count + 1 = sumSigCounts (updOrInsert sig emptySigBucket
      (bumpSig ts o e sx v m) tb.by_signature)
    rw [sumSigCounts_updOrInsert, h1]
  · show (if o = "success" then tb.success_count + 1 else tb.success_count) +
      (if o = "failure" then tb.failure_count + 1 else tb.failure_count) ≤
      tb.total_count + 1
    by_cases hs : o = "success"
    · have hf : ¬ o = "failure" := by rw [hs]; decide
      simp [hs, hf]
      omega
    · by_cases hf : o = "failure"
      · simp [hs, hf]
        omega
      · simp [hs, hf]
        omega

lemma all_updOrInsert {β : Type} (p : β → Bool) (k : String) (d : β) (f : β → β)
    (hf : ∀ v, p v = true → p (f v) = true) (hd : p (f d) = true) :
    ∀ bs : List (String × β), bs.all (fun kv => p kv.2) = true →
      (updOrInsert k d f bs).all (fun kv => p kv.2) = true := by
  intro bs
  induction bs with
  | nil =>
    intro _
    simpa [updOrInsert] using hd
  | cons hd' tl ih =>
    obtain ⟨k', v⟩ := hd'
    intro h
    simp only [List.all_cons, Bool.and_eq_true] at h
    obtain ⟨hv, htl⟩ := h
    by_cases hk : k' = k
    · simp only [updOrInsert, if_pos hk, List.all_cons, Bool.and_eq_true]
      exact ⟨hf v hv, htl⟩
    · simp only [updOrInsert, if_neg hk, List.all_cons, Bool.and_eq_true]
      exact ⟨hv, ih htl⟩

lemma storeOkB_add_pattern_internal (now : String) (l : Learning)
    (pt sig : String) (e : Option ExampleVal) (sx : String)
    (v : Option (List String)) (o : String) (m : Option JDict)
    (ts : Option String) (h : storeOkB l = true) :
    storeOkB (add_pattern_internal now l pt sig e sx v o m ts) = true := by
  unfold storeOkB add_pattern_internal
  refine all_updOrInsert typeOkB _ _ _ ?_ ?_ l.patterns h
  · intro tb htb
    exact typeOkB_bumpType _ _ _ _ _ _ _ tb htb
  · exact typeOkB_bumpType _ _ _ _ _ _ _ emptyTypeBucket (by decide)

lemma storeOkB_add_pattern (now : String) (l : Learning) (pt : String)
    (sig : Option String) (e : Option ExampleVal) (sx : String)
    (v : Option (List String)) (o : String) (m : Option JDict)
    (h : storeOkB l = true) :
    storeOkB (add_pattern now l pt sig e sx v o m) = true := by
  unfold add_pattern
  exact storeOkB_add_pattern_internal now l pt _ e sx v o m none h

/-- C4: after any sequence of `add_pattern` observations starting from the
empty store, every pattern type's `total_count` equals the sum of the
per-signature counts, and `success_count + failure_count ≤ total_count`
(outcomes other than `success`/`failure` increment only the totals). -/
theorem pattern_store_counters_invariant (t0 : String) (obs : List AddObs) :
    storeOkB (obs.foldl applyAddObs (init_learning t0)) = true := by
  have gen : ∀ (obs : List AddObs) (l : Learning), storeOkB l = true →
      storeOkB (obs.foldl applyAddObs l) = true := by
    intro obs
    induction obs with
    | nil => intro l h; simpa using h
    | cons o rest ih =>
      intro l h
      simp only [List.foldl_cons]
      exact ih (applyAddObs l o)
        (storeOkB_add_pattern o.now l o.pattern_type o.signature o.exampleV
          o.suggested_fix o.verify_cmd o.outcome o.meta h)
  exact gen obs (init_learning t0) rfl

/-! ### Fix-queue attempts/history lemmas (claim C3) -/

lemma attemptsOkTask_applyStatusUpd (now st : String) (r : Option TaskResult)
    (t : FixTask) (h : attemptsOkTask t = true) :
    attemptsOkTask (applyStatusUpd now st r t) = true := by
  simp only [attemptsOkTask, countAttempted, beq_iff_eq] at h ⊢
  simp only [applyStatusUpd, List.filter_append, List.length_append]
  by_cases hst : st = "attempted"
  · simp [hst, h]
  · have hbeq : (st == "attempted") = false := by simpa using hst
    simp [hst, h, List.filter, hbeq]

lemma record_pattern_for_status_queue (now : String) (s : SysState)
    (tid st : String) (r : Option TaskResult) :
    (record_pattern_for_status now s tid st r).queue = s.queue := by
  unfold record_pattern_for_status
  split
  · split <;> rfl
  · rfl

lemma update_task_status_all (p : FixTask → Bool) (now : String) (s : SysState)
    (tid st : String) (r : Option TaskResult)
    (hp : ∀ t, p t = true → p (applyStatusUpd now st r t) = true)
    (h : s.queue.all p = true) :
    (update_task_status now s tid st r).1.queue.all p = true := by
  unfold update_task_status
  cases hany : s.queue.any (fun task => task.id == tid) with
  | false => simpa [hany] using h
  | true =>
    simp only [hany, if_true]
    rw [record_pattern_for_status_queue]
    rw [List.all_eq_true]
    intro t ht
    rw [List.mem_map] at ht
    obtain ⟨t0, ht0, rfl⟩ := ht
    have hpt0 := List.all_eq_true.mp h t0 ht0
    by_cases hid : (t0.id == tid) = true
    · simp only [hid, if_true]
      exact hp t0 hpt0
    · simp only [hid]
      simpa using hpt0

lemma attemptsOkB_update (now : String) (s : SysState) (tid st : String)
    (r : Option TaskResult) (h : attemptsOkB s = true) :
    attemptsOkB (update_task_status now s tid st r).1 = true :=
  update_task_status_all attemptsOkTask now s tid st r
    (fun t ht => attemptsOkTask_applyStatusUpd now st r t ht) h

lemma attemptsOkB_process (nowA nowB ex : String) (exec : ExecOutcome)
    (d : ℚ) (s : SysState) (h : attemptsOkB s = true) :
    attemptsOkB (process_one_task nowA nowB ex exec d s).1 = true := by
  unfold process_one_task
  cases hg : get_next_fix s.queue with
  | none => simpa using h
  | some task =>
    simp only
    have h1 : attemptsOkB (update_task_status nowA s task.id "attempted"
        (some { executor := ex,
                verify_cmd := if task.verify_cmd ≠ [] then task.verify_cmd
                  else ["echo", "missing_verify_cmd"] })).1 = true :=
      attemptsOkB_update _ _ _ _ _ h
    cases exec with
    | timedOut => simpa using h1
    | finished rc out err =>
      simp only
      exact attemptsOkB_update _ _ _ _ _ h1

lemma attemptsOkB_applyQOp (s : SysState) (op : QOp)
    (h : attemptsOkB s = true) : attemptsOkB (applyQOp s op) = true := by
  cases op with
  | add now task_id incident sfix vcmd created_by meta =>
    simp only [applyQOp, add_fix_task, attemptsOkB, List.all_append] at h ⊢
    simp [h, attemptsOkTask, countAttempted]
  | upd now task_id status result =>
    exact attemptsOkB_update now s task_id status result h
  | processOne nowA nowB ex exec d =>
    exact attemptsOkB_process nowA nowB ex exec d s h

/-- C3 (amended): after any sequence of `add_fix_task` /
`update_task_status` / `process_one_task` operations starting from an empty
queue, every task's `attempts` field equals the number of history entries
recorded with status `"attempted"`.  (The strict
pending → attempted → {completed, failed} ordering is not part of this
statement: `update_task_status` records whatever status it is given, see the
counterexample.) -/
theorem fix_queue_attempts_invariant (t0 : String) (ops : List QOp) :
    attemptsOkB (applyQOps (initSysState t0) ops) = true := by
  have gen : ∀ (ops : List QOp) (s : SysState), attemptsOkB s = true →
      attemptsOkB (applyQOps s ops) = true := by
    intro ops
    induction ops with
    | nil => intro s h; simpa [applyQOps] using h
    | cons op rest ih =>
      intro s h
      simp only [applyQOps, List.foldl_cons]
      exact ih (applyQOp s op) (attemptsOkB_applyQOp s op h)
  exact gen ops (initSysState t0) rfl

/-- The operation sequence refuting the strict status-transition half of
claim C3: create a task, mark it `completed`, then mark it `pending` again
— `update_task_status` applies any status it is handed. -/
def c3Ops : List QOp :=
  [QOp.add "t1" "fix_c3" { error := some "boom" } "do it" ["true"] "self_heal" [],
   QOp.upd "t2" "fix_c3" "completed" none,
   QOp.upd "t3" "fix_c3" "pending" none]

/-- C3 counterexample: a reachable queue state whose task history reads
pending → completed → pending, violating the claimed strict
pending → attempted → {completed, failed} ordering (both the jump to
`completed` without `attempted` and the return to `pending`). -/
theorem fix_task_transitions_cex :
    ((applyQOps (initSysState "t0") c3Ops).queue.map
      (fun t => t.history.map (fun e => e.status))) =
      [["pending", "completed", "pending"]] ∧
    transitionsOkB (applyQOps (initSysState "t0") c3Ops) = false := by
  refine ⟨?_, ?_⟩ <;> rfl

/-! ### Migration idempotence lemmas (claim C5) -/

lemma alreadyNormalizedList_map_bucket (pats : List (String × TypeBucket)) :
    alreadyNormalizedList (pats.map (fun kv => (kv.1, PValue.bucket kv.2))) = true := by
  induction pats with
  | nil => rfl
  | cons hd tl ih =>
    simp only [alreadyNormalizedList, List.map_cons, List.all_cons,
      Bool.and_eq_true] at ih ⊢
    exact ⟨rfl, ih⟩

/-- Whether the migration loop would set the `changed` flag on this
`patterns` value (a list with at least one dict element, or any dict). -/
def chFlagEntry : PValue → Bool
  | PValue.llist items => items.any (fun it => it.isSome)
  | PValue.ldict _ => true
  | PValue.bucket _ => true
  | PValue.other => false

/-- Whether the migration loop would set the `changed` flag at all. -/
def chFlag (pats : List (String × PValue)) : Bool :=
  pats.any (fun kv => chFlagEntry kv.2)

lemma foldl_replayListStep_snd (now pt : String) :
    ∀ (items : List (Option LItem)) (acc : Learning × Bool),
      (items.foldl (replayListStep now pt) acc).2 =
        (acc.2 || items.any (fun it => it.isSome)) := by
  intro items
  induction items with
  | nil => intro acc; simp
  | cons hd tl ih =>
    intro acc
    cases hd with
    | none => simp [replayListStep, ih]
    | some item => simp [replayListStep, ih]

lemma replayPatternsEntry_snd (now : String) (acc : Learning × Bool)
    (kv : String × PValue) :
    (replayPatternsEntry now acc kv).2 = (acc.2 || chFlagEntry kv.2) := by
  obtain ⟨k, v⟩ := kv
  cases v with
  | llist items => simp [replayPatternsEntry, chFlagEntry, foldl_replayListStep_snd]
  | ldict d => simp [replayPatternsEntry, chFlagEntry]
  | bucket b => simp [replayPatternsEntry, chFlagEntry]
  | other => simp [replayPatternsEntry, chFlagEntry]

lemma foldl_replay_snd (now : String) :
    ∀ (pats : List (String × PValue)) (acc : Learning × Bool),
      (pats.foldl (replayPatternsEntry now) acc).2 = (acc.2 || chFlag pats) := by
  intro pats
  induction pats with
  | nil => intro acc; simp [chFlag]
  | cons hd tl ih =>
    intro acc
    simp only [List.foldl_cons, ih, replayPatternsEntry_snd, chFlag, List.any_cons]
    simp [Bool.or_assoc]

/-- C5: the legacy-schema migration is idempotent.  A store already in the
nested `by_signature` schema is returned unchanged with `changed = False`
(so `load_learning` does not rewrite it), and normalizing the output of any
normalization returns that output unchanged — the migration persists the
normalized form exactly once. -/
theorem normalize_learning_idempotent :
    (∀ (l : RawLearning) (now : String), alreadyNormalizedRaw l = true →
      normalize_learning now l = (l, false)) ∧
    (∀ (l : RawLearning) (now now2 : String),
      normalize_learning now2 (normalize_learning now l).1 =
        ((normalize_learning now l).1, false)) := by
  have part1 : ∀ (l : RawLearning) (now : String), alreadyNormalizedRaw l = true →
      normalize_learning now l = (l, false) := by
    intro l now h
    unfold alreadyNormalizedRaw at h
    unfold normalize_learning
    cases hp : l.patterns with
    | none => rw [hp] at h; simp at h
    | some pats =>
      rw [hp] at h
      have h' : alreadyNormalizedList pats = true := h
      simp [h']
  refine ⟨part1, ?_⟩
  intro l now now2
  cases hp : l.patterns with
  | none =>
    have h1 : normalize_learning now l = (toRaw (init_learning now), true) := by
      unfold normalize_learning
      rw [hp]
    rw [h1]
    exact part1 _ now2 (by simp [alreadyNormalizedRaw, toRaw, init_learning,
      alreadyNormalizedList])
  | some pats =>
    by_cases han : alreadyNormalizedList pats = true
    · have hn : alreadyNormalizedRaw l = true := by
        unfold alreadyNormalizedRaw
        rw [hp]
        exact han
      rw [part1 l now hn]
      exact part1 l now2 hn
    · have han' : alreadyNormalizedList pats = false := by simpa using han
      by_cases hch : chFlag pats = true
      · have h1 : normalize_learning now l =
            (toRaw (pats.foldl (replayPatternsEntry now) (init_learning now, false)).1,
              true) := by
          unfold normalize_learning
          rw [hp]
          simp [han', foldl_replay_snd, hch]
        rw [h1]
        exact part1 _ now2 (by simp [alreadyNormalizedRaw, toRaw,
          alreadyNormalizedList_map_bucket])
      · have hch' : chFlag pats = false := by simpa using hch
        have h1 : normalize_learning now l = (l, false) := by
          unfold normalize_learning
          rw [hp]
          simp [han', foldl_replay_snd, hch']
        rw [h1]
        unfold normalize_learning
        rw [hp]
        simp [han', foldl_replay_snd, hch']

/-- A one-entry legacy (flat-list) persisted store. -/
def rawLegacyStore : RawLearning :=
  { patterns := some [("old_type", PValue.llist [some { outcome := some "success" }])] }

/-- The migration output of `rawLegacyStore`. -/
def legacyMigrated : RawLearning := (normalize_learning "t0" rawLegacyStore).1

/-- Witness for C5: the migration output of a concrete one-entry legacy
store is already normalized and is returned unchanged with
`changed = False`. -/
theorem normalize_learning_idempotent_witness :
    alreadyNormalizedRaw legacyMigrated = true ∧
    normalize_learning "t1" legacyMigrated = (legacyMigrated, false) :=
  ⟨by decide, normalize_learning_idempotent.1 legacyMigrated "t1" (by decide)⟩

end Nexus
